import Mathlib

/-!
Shallow embedding of the seeed-erpc-rs wire-protocol layer: the eRPC
header and frame codecs (src/codec.rs), the service / message-type /
request identifier enums (src/ids.rs), the error taxonomy (src/lib.rs)
and the reply-parsing methods of the concrete RPC calls
(src/system_rpcs.rs, src/wifi_rpcs.rs, src/tcpip_rpcs.rs).

Machine integers are modelled as Nat (with explicit `% 2^w` where the
Rust code can wrap) and Int for signed values.  Byte buffers are
`List Nat` whose elements are intended to be `< 256`.  The nom
streaming combinators used by the source are modelled by `IResult`,
which distinguishes success, "need more data" (nom `Err::Incomplete`)
and a structural parse failure (nom `Err::Error`/`Err::Failure`).
-/

/-- Outcome of a nom-style streaming parser: success with the
unconsumed remainder, an incomplete-input signal, or a malformed-input
failure. -/
inductive IResult (I : Type) (O : Type) where
  | done (rest : I) (out : O)
  | incomplete
  | failed
deriving DecidableEq

/-- Monadic sequencing of nom parsers, mirroring the `?` operator on
`IResult` inside another nom parser. -/
def IResult.bind {I O B : Type} (r : IResult I O) (f : I → O → IResult I B) : IResult I B :=
  match r with
  | .done rest out => f rest out
  | .incomplete => .incomplete
  | .failed => .failed

/-- Payload of `Err::Parsing`, modelling `nom::Err<()>`. -/
inductive NomErr where
  | Incomplete
  | Error
  | Failure
deriving DecidableEq

/-- Error taxonomy of src/lib.rs (`enum Err<E>`). -/
inductive Err (E : Type) where
  | Parsing (e : NomErr)
  | CRCMismatch
  | TXErr
  | NotOurs
  | RPCErr (e : E)
  | ResponseOverrun
  | Unknown
deriving DecidableEq

/-- Sequencing of a nom parser result inside a function returning
`Result<_, Err<E>>`, mirroring the `?` operator together with the
`From<nom::Err<()>> for Err<E>` conversion of src/lib.rs. -/
def bindNom {O B E : Type} (r : IResult (List Nat) O)
    (f : List Nat → O → Except (Err E) B) : Except (Err E) B :=
  match r with
  | .done rest out => f rest out
  | .incomplete => .error (.Parsing .Incomplete)
  | .failed => .error (.Parsing .Error)

/-- Model of `nom::number::streaming::le_u8`. -/
def le_u8 : List Nat → IResult (List Nat) Nat
  | b :: rest => .done rest b
  | _ => .incomplete

/-- Model of `nom::number::streaming::le_u16`. -/
def le_u16 : List Nat → IResult (List Nat) Nat
  | b0 :: b1 :: rest => .done rest (b0 + b1 * 256)
  | _ => .incomplete

/-- Model of `nom::number::streaming::le_u32`. -/
def le_u32 : List Nat → IResult (List Nat) Nat
  | b0 :: b1 :: b2 :: b3 :: rest =>
      .done rest (b0 + b1 * 256 + b2 * 65536 + b3 * 16777216)
  | _ => .incomplete

/-- Two's-complement reinterpretation of a 16-bit unsigned value, as in
Rust `v as i16`. -/
def toI16 (v : Nat) : Int :=
  if v < 32768 then (v : Int) else (v : Int) - 65536

/-- Two's-complement reinterpretation of a 32-bit unsigned value, as in
Rust `v as i32`. -/
def toI32 (v : Nat) : Int :=
  if v < 2147483648 then (v : Int) else (v : Int) - 4294967296

/-- Model of `nom::number::streaming::le_i16`. -/
def le_i16 : List Nat → IResult (List Nat) Int
  | b0 :: b1 :: rest => .done rest (toI16 (b0 + b1 * 256))
  | _ => .incomplete

/-- Model of `nom::number::streaming::le_i32`. -/
def le_i32 : List Nat → IResult (List Nat) Int
  | b0 :: b1 :: b2 :: b3 :: rest =>
      .done rest (toI32 (b0 + b1 * 256 + b2 * 65536 + b3 * 16777216))
  | _ => .incomplete

/-- Model of `nom::bytes::streaming::take(n)`. -/
def nomTake (n : Nat) (l : List Nat) : IResult (List Nat) (List Nat) :=
  if l.length < n then .incomplete else .done (l.drop n) (l.take n)

/-- Little-endian byte decomposition of a 32-bit value, modelling
`u32::to_le_bytes`. -/
def u32_le_bytes (v : Nat) : List Nat :=
  [v % 256, v / 256 % 256, v / 65536 % 256, v / 16777216 % 256]

/-- Little-endian byte decomposition of a 16-bit value, modelling
`u16::to_le_bytes`. -/
def u16_le_bytes (v : Nat) : List Nat :=
  [v % 256, v / 256 % 256]

/-- MsgType enum of src/ids.rs with its `#[repr]` discriminants. -/
inductive MsgType where
  | Invocation
  | Oneway
  | Reply
  | Notification
  | Unknown
deriving DecidableEq

/-- Numeric discriminant of `MsgType`, as used by `as u32` casts. -/
def MsgType.val : MsgType → Nat
  | .Invocation => 0
  | .Oneway => 1
  | .Reply => 2
  | .Notification => 3
  | .Unknown => 255

/-- Conversion `impl From<u8> for MsgType` of src/ids.rs. -/
def MsgType.fromU8 : Nat → MsgType
  | 0 => .Invocation
  | 1 => .Oneway
  | 2 => .Reply
  | 3 => .Notification
  | _ => .Unknown

/-- Service enum of src/ids.rs with its discriminants. -/
inductive Service where
  | System
  | BLEHost
  | BLEGap
  | BLEGapBone
  | BLECallback
  | Wifi
  | TCPIP
  | WifiCallback
  | Unknown
deriving DecidableEq

/-- Numeric discriminant of `Service`, as used by `as u32` casts. -/
def Service.val : Service → Nat
  | .System => 1
  | .BLEHost => 2
  | .BLEGap => 3
  | .BLEGapBone => 4
  | .BLECallback => 13
  | .Wifi => 14
  | .TCPIP => 15
  | .WifiCallback => 18
  | .Unknown => 255

/-- Conversion `impl From<u8> for Service` of src/ids.rs. -/
def Service.fromU8 : Nat → Service
  | 1 => .System
  | 2 => .BLEHost
  | 3 => .BLEGap
  | 4 => .BLEGapBone
  | 13 => .BLECallback
  | 14 => .Wifi
  | 15 => .TCPIP
  | 18 => .WifiCallback
  | _ => .Unknown

/-- SystemRequest ids of src/ids.rs. -/
inductive SystemRequest where
  | VersionID
  | AckID
deriving DecidableEq

/-- Numeric value of a `SystemRequest` (`impl From<SystemRequest> for u8`). -/
def SystemRequest.val : SystemRequest → Nat
  | .VersionID => 1
  | .AckID => 2

/-- WifiRequest ids of src/ids.rs. -/
inductive WifiRequest where
  | Connect
  | ConnectBSSID
  | Disconnect
  | IsConnectedToAP
  | IsUp
  | GetMacAddress
  | TurnOn
  | TurnOff
  | ScanStart
  | IsScanning
  | ScanGetAP
  | ScanGetNumAPs
deriving DecidableEq

/-- Numeric value of a `WifiRequest` (`impl From<WifiRequest> for u8`). -/
def WifiRequest.val : WifiRequest → Nat
  | .Connect => 1
  | .ConnectBSSID => 2
  | .Disconnect => 3
  | .IsConnectedToAP => 4
  | .IsUp => 5
  | .GetMacAddress => 8
  | .TurnOn => 27
  | .TurnOff => 28
  | .ScanStart => 64
  | .IsScanning => 65
  | .ScanGetAP => 66
  | .ScanGetNumAPs => 67

/-- TCPIPRequest ids of src/ids.rs. -/
inductive TCPIPRequest where
  | AdapterInit
  | StaStart
  | APStart
  | Stop
  | Up
  | Down
  | GetIPInfo
  | SetIPInfo
  | SetDNSInfo
  | GetDNSInfo
  | DHCPServStart
  | DHCPServStop
  | DHCPClientStart
  | DHCPClientStop
  | SetHostname
  | GetHostname
  | GetMAC
  | SetMAC
deriving DecidableEq

/-- Numeric value of a `TCPIPRequest` (`impl From<TCPIPRequest> for u8`). -/
def TCPIPRequest.val : TCPIPRequest → Nat
  | .AdapterInit => 1
  | .StaStart => 2
  | .APStart => 3
  | .Stop => 4
  | .Up => 5
  | .Down => 6
  | .GetIPInfo => 7
  | .SetIPInfo => 8
  | .SetDNSInfo => 9
  | .GetDNSInfo => 10
  | .DHCPServStart => 11
  | .DHCPServStop => 12
  | .DHCPClientStart => 13
  | .DHCPClientStop => 14
  | .SetHostname => 15
  | .GetHostname => 16
  | .GetMAC => 17
  | .SetMAC => 18

/-- Constant `BASIC_CODEC_VERSION` of src/codec.rs. -/
def BASIC_CODEC_VERSION : Nat := 1

/-- RPC header structure of src/codec.rs. -/
structure Header where
  service : Service
  request : Nat
  msg_type : MsgType
  sequence : Nat
deriving DecidableEq

/-- Wire encoding `Header::as_bytes` of src/codec.rs: the leading
little-endian 32-bit word packs version, service, request and message
type, followed by the little-endian sequence number. -/
def Header.as_bytes (h : Header) : List Nat :=
  let header : Nat :=
    (BASIC_CODEC_VERSION <<< 24) ||| (h.service.val <<< 16) |||
      (h.request <<< 8) ||| h.msg_type.val
  u32_le_bytes header ++ u32_le_bytes h.sequence

/-- Decoder `Header::parse` of src/codec.rs: two streaming little-endian
32-bit reads, then field extraction by shifting and masking. -/
def Header.parse (i : List Nat) : IResult (List Nat) Header :=
  IResult.bind (le_u32 i) fun i header =>
  IResult.bind (le_u32 i) fun i sequence =>
  .done i
    { service := Service.fromU8 ((header >>> 16) &&& 0xff)
      request := (header >>> 8) &&& 0xff
      msg_type := MsgType.fromU8 (header &&& 0xff)
      sequence := sequence }

/-- One iteration of the inner 8-round loop of `crc16` in src/codec.rs:
shift the 32-bit accumulator left (wrapping), and XOR in the polynomial
when bit 15 was set before the shift. -/
def crcShift (crc : Nat) : Nat :=
  let temp := (crc <<< 1) % 4294967296
  if crc &&& 0x8000 ≠ 0 then temp ^^^ 0x1021 else temp

/-- Checksum function `crc16` of src/codec.rs: fold every input byte
into a 32-bit accumulator seeded with 0xEF4A, running eight shift
rounds per byte, and return the low 16 bits. -/
def codec.crc16 (data : List Nat) : Nat :=
  (data.foldl (fun crc b => crcShift^[8] (crc ^^^ (b <<< 8))) 0xEF4A) % 65536

/-- Frame header structure of src/codec.rs. -/
structure FrameHeader where
  msg_length : Nat
  crc16 : Nat
deriving DecidableEq

/-- Constructor `FrameHeader::new_from_msg` of src/codec.rs; the Rust
`msg.len() as u16` cast truncates the length modulo 2^16. -/
def FrameHeader.new_from_msg (msg : List Nat) : FrameHeader :=
  { msg_length := msg.length % 65536, crc16 := codec.crc16 msg }

/-- Wire encoding `FrameHeader::as_bytes` of src/codec.rs. -/
def FrameHeader.as_bytes (f : FrameHeader) : List Nat :=
  u16_le_bytes f.msg_length ++ u16_le_bytes f.crc16

/-- Decoder `FrameHeader::parse` of src/codec.rs. -/
def FrameHeader.parse (i : List Nat) : IResult (List Nat) FrameHeader :=
  IResult.bind (le_u16 i) fun i msg_length =>
  IResult.bind (le_u16 i) fun i crc =>
  .done i { msg_length := msg_length, crc16 := crc }

/-- CRC verification `FrameHeader::check_crc` of src/codec.rs. -/
def FrameHeader.check_crc (E : Type) (f : FrameHeader) (data : List Nat) :
    Except (Err E) Unit :=
  if codec.crc16 data = f.crc16 then .ok () else .error .CRCMismatch

/-- UTF-8 encoded length of the char `b as char` for a byte value b:
code points below 0x80 encode as one byte, 0x80..=0xFF as two. -/
def utf8Len (b : Nat) : Nat :=
  if b < 128 then 1 else 2

/-- Repeated `heapless::String<N>::push(b as char)` calls of the reply
parsers: append chars one at a time into a buffer whose capacity `cap`
is counted in UTF-8 bytes (`len` is the UTF-8 length used so far),
failing as soon as a char's encoding would exceed the capacity. -/
def pushChars (cap len : Nat) (acc : List Nat) : List Nat → Option (List Nat)
  | [] => some acc
  | b :: rest =>
      if len + utf8Len b ≤ cap then pushChars cap (len + utf8Len b) (acc ++ [b]) rest
      else none

/-- Conversion `impl From<u32> for BssType` of src/lib.rs. -/
inductive BssType where
  | Infra
  | Adhoc
  | Any
  | Unknown
deriving DecidableEq

/-- Conversion `impl From<u32> for BssType` of src/lib.rs. -/
def BssType.fromU32 : Nat → BssType
  | 0 => .Infra
  | 1 => .Adhoc
  | 2 => .Any
  | _ => .Unknown

/-- WPS enum of src/lib.rs. -/
inductive WPS where
  | Default
  | UserSpecifed
  | MachineSpecified
  | Rekey
  | Pushbutton
  | RegistrarSpecified
  | None
  | Wsc
  | Unknown
deriving DecidableEq

/-- Conversion `impl From<u32> for WPS` of src/lib.rs. -/
def WPS.fromU32 : Nat → WPS
  | 0 => .Default
  | 1 => .UserSpecifed
  | 2 => .MachineSpecified
  | 3 => .Rekey
  | 4 => .Pushbutton
  | 5 => .RegistrarSpecified
  | 6 => .None
  | 7 => .Wsc
  | _ => .Unknown

/-- Band enum of src/lib.rs; the Rust names `_5Ghz` and `_24Ghz` are
spelled `Ghz5` and `Ghz24`. -/
inductive Band where
  | Ghz5
  | Ghz24
  | Unknown
deriving DecidableEq

/-- Conversion `impl From<u32> for Band` of src/lib.rs. -/
def Band.fromU32 : Nat → Band
  | 0 => .Ghz5
  | 1 => .Ghz24
  | _ => .Unknown

/-- Union of every flag bit declared in the `bitflags!` Security block
of src/lib.rs. -/
def securityAllBits : Nat :=
  1 ||| 2 ||| 4 ||| 0x10 ||| 0x8000 ||| 0x200000 ||| 0x400000 ||| 0x800000 ||| 0x10000000

/-- Model of `Security::from_bits_truncate`: keep only declared bits. -/
def Security.from_bits_truncate (v : Nat) : Nat :=
  v &&& securityAllBits

/-- SSID structure of src/lib.rs (length-prefixed 33-byte buffer). -/
structure SSID where
  len : Nat
  value : List Nat
deriving DecidableEq

/-- BSSID structure of src/lib.rs (6-byte identifier). -/
structure BSSID where
  bytes : List Nat
deriving DecidableEq

/-- ScanResult structure of src/wifi_rpcs.rs. -/
structure ScanResult where
  ssid : SSID
  bssid : BSSID
  rssi : Int
  bss_type : BssType
  security : Nat
  wps : WPS
  chan : Nat
  band : Band
deriving DecidableEq

/-- Ipv4Addr values built by `Ipv4Addr::new` in src/tcpip_rpcs.rs. -/
structure Ipv4Addr where
  a : Nat
  b : Nat
  c : Nat
  d : Nat
deriving DecidableEq

/-- IPInfo structure of src/lib.rs. -/
structure IPInfo where
  ip : Ipv4Addr
  netmask : Ipv4Addr
  gateway : Ipv4Addr
deriving DecidableEq

/-- Reply parser of the GetVersion RPC (src/system_rpcs.rs): validate
the header, read a 32-bit length, reject lengths above 16, then push
every remaining byte as a char into a string of 16 bytes UTF-8
capacity. -/
def GetVersion.parse (data : List Nat) : Except (Err Unit) (List Nat) :=
  bindNom (Header.parse data) fun data hdr =>
  if hdr.msg_type ≠ MsgType.Reply ∨ hdr.service ≠ Service.System ∨
      hdr.request ≠ SystemRequest.VersionID.val then
    .error .NotOurs
  else
    bindNom (le_u32 data) fun data length =>
    if 16 < length then
      .error .ResponseOverrun
    else
      match pushChars 16 0 [] data with
      | some out => .ok out
      | none => .error .ResponseOverrun

/-- Reply parser of the GetMacAddress RPC (src/wifi_rpcs.rs): validate
the header, require at least 18 payload bytes, push the first 17 bytes
as chars into a string of 18 bytes UTF-8 capacity, then read the 32-bit
status at offset 18 and fail with `RPCErr` when it is nonzero. -/
def GetMacAddress.parse (data : List Nat) : Except (Err Int) (List Nat) :=
  bindNom (Header.parse data) fun data hdr =>
  if hdr.msg_type ≠ MsgType.Reply ∨ hdr.service ≠ Service.Wifi ∨
      hdr.request ≠ WifiRequest.GetMacAddress.val then
    .error .NotOurs
  else if data.length < 18 then
    .error (.RPCErr (-1))
  else
    match pushChars 18 0 [] (data.take 17) with
    | none => .error .ResponseOverrun
    | some mac =>
      bindNom (le_u32 (data.drop 18)) fun _ result =>
      if result ≠ 0 then .error (.RPCErr (toI32 result)) else .ok mac

/-- Reply parser of the IsScanning RPC (src/wifi_rpcs.rs). -/
def IsScanning.parse (data : List Nat) : Except (Err Unit) Bool :=
  bindNom (Header.parse data) fun data hdr =>
  if hdr.msg_type ≠ MsgType.Reply ∨ hdr.service ≠ Service.Wifi ∨
      hdr.request ≠ WifiRequest.IsScanning.val then
    .error .NotOurs
  else if data.length < 1 then
    .error (.RPCErr ())
  else
    .ok (decide (data.head? ≠ some 0))

/-- Decoder for one 62-byte ScanResult record inside the ScanGetAP
reply-parsing loop of src/wifi_rpcs.rs. -/
def parseScanResult (d : List Nat) : IResult (List Nat) ScanResult :=
  IResult.bind (le_u8 d) fun d ssid_len =>
  IResult.bind (nomTake 33 d) fun d ssid_data =>
  IResult.bind (nomTake 6 d) fun d bssid =>
  IResult.bind (le_i16 d) fun d rssi =>
  IResult.bind (le_u32 d) fun d bss_type =>
  IResult.bind (le_u32 d) fun d security =>
  IResult.bind (le_u32 d) fun d wps =>
  IResult.bind (le_u32 d) fun d chan =>
  IResult.bind (le_u32 d) fun d band =>
  .done d
    { ssid := { len := ssid_len, value := ssid_data }
      bssid := { bytes := bssid }
      rssi := rssi
      bss_type := BssType.fromU32 bss_type
      security := Security.from_bits_truncate security
      wps := WPS.fromU32 wps
      chan := chan
      band := Band.fromU32 band }

/-- Iterated form of the `for i in 0..N` decoding loop of
`ScanGetAP::parse`. -/
def parseScanResults (count : Nat) (d : List Nat) :
    IResult (List Nat) (List ScanResult) :=
  match count with
  | 0 => .done d []
  | n + 1 =>
    IResult.bind (parseScanResult d) fun d r =>
    IResult.bind (parseScanResults n d) fun d rs =>
    .done d (r :: rs)

/-- Reply parser of the ScanGetAP RPC (src/wifi_rpcs.rs), with the
type-level count `N` passed as the parameter `n`: validate the header,
require the declared binary length to be `62 * n`, decode `n`
ScanResult records, then read the trailing 32-bit return value and
deliver it inside the successful result. -/
def ScanGetAP.parse (n : Nat) (data : List Nat) :
    Except (Err Nat) (List ScanResult × Int) :=
  bindNom (Header.parse data) fun data hdr =>
  if hdr.msg_type ≠ MsgType.Reply ∨ hdr.service ≠ Service.Wifi ∨
      hdr.request ≠ WifiRequest.ScanGetAP.val then
    .error .NotOurs
  else
    bindNom (le_u32 data) fun data l =>
    if l ≠ 62 * n then
      .error .ResponseOverrun
    else
      bindNom (parseScanResults n data) fun data res =>
      bindNom (le_i32 data) fun _ ret_val =>
      .ok (res, ret_val)

/-- Reply parser of the ScanGetNumAPs RPC (src/wifi_rpcs.rs). -/
def ScanGetNumAPs.parse (data : List Nat) : Except (Err Unit) Nat :=
  bindNom (Header.parse data) fun data hdr =>
  if hdr.msg_type ≠ MsgType.Reply ∨ hdr.service ≠ Service.Wifi ∨
      hdr.request ≠ WifiRequest.ScanGetNumAPs.val then
    .error .NotOurs
  else if data.length < 2 then
    .error (.RPCErr ())
  else
    bindNom (le_u16 data) fun _ num =>
    .ok num

/-- Reply parser of the ScanStart RPC (src/wifi_rpcs.rs). -/
def ScanStart.parse (data : List Nat) : Except (Err Unit) Int :=
  bindNom (Header.parse data) fun data hdr =>
  if hdr.msg_type ≠ MsgType.Reply ∨ hdr.service ≠ Service.Wifi ∨
      hdr.request ≠ WifiRequest.ScanStart.val then
    .error .NotOurs
  else
    bindNom (le_i32 data) fun _ num =>
    .ok num

/-- Reply parser of the WifiOn RPC (src/wifi_rpcs.rs). -/
def WifiOn.parse (data : List Nat) : Except (Err Unit) Int :=
  bindNom (Header.parse data) fun data hdr =>
  if hdr.msg_type ≠ MsgType.Reply ∨ hdr.service ≠ Service.Wifi ∨
      hdr.request ≠ WifiRequest.TurnOn.val then
    .error .NotOurs
  else
    bindNom (le_i32 data) fun _ num =>
    .ok num

/-- Reply parser of the WifiOff RPC (src/wifi_rpcs.rs). -/
def WifiOff.parse (data : List Nat) : Except (Err Unit) Int :=
  bindNom (Header.parse data) fun data hdr =>
  if hdr.msg_type ≠ MsgType.Reply ∨ hdr.service ≠ Service.Wifi ∨
      hdr.request ≠ WifiRequest.TurnOff.val then
    .error .NotOurs
  else
    bindNom (le_i32 data) fun _ num =>
    .ok num

/-- Reply parser of the WifiConnect RPC (src/wifi_rpcs.rs). -/
def WifiConnect.parse (data : List Nat) : Except (Err Unit) Int :=
  bindNom (Header.parse data) fun data hdr =>
  if hdr.msg_type ≠ MsgType.Reply ∨ hdr.service ≠ Service.Wifi ∨
      hdr.request ≠ WifiRequest.Connect.val then
    .error .NotOurs
  else
    bindNom (le_i32 data) fun _ num =>
    .ok num

/-- Reply parser of the AdapterInit RPC (src/tcpip_rpcs.rs). -/
def AdapterInit.parse (data : List Nat) : Except (Err Unit) Unit :=
  bindNom (Header.parse data) fun _ hdr =>
  if hdr.msg_type ≠ MsgType.Reply ∨ hdr.service ≠ Service.TCPIP ∨
      hdr.request ≠ TCPIPRequest.AdapterInit.val then
    .error .NotOurs
  else
    .ok ()

/-- Reply parser of the DHCPClientStop RPC (src/tcpip_rpcs.rs). -/
def DHCPClientStop.parse (data : List Nat) : Except (Err Unit) Int :=
  bindNom (Header.parse data) fun data hdr =>
  if hdr.msg_type ≠ MsgType.Reply ∨ hdr.service ≠ Service.TCPIP ∨
      hdr.request ≠ TCPIPRequest.DHCPClientStop.val then
    .error .NotOurs
  else
    bindNom (le_i32 data) fun _ ret_val =>
    .ok ret_val

/-- Reply parser of the DHCPClientStart RPC (src/tcpip_rpcs.rs). -/
def DHCPClientStart.parse (data : List Nat) : Except (Err Unit) Int :=
  bindNom (Header.parse data) fun data hdr =>
  if hdr.msg_type ≠ MsgType.Reply ∨ hdr.service ≠ Service.TCPIP ∨
      hdr.request ≠ TCPIPRequest.DHCPClientStart.val then
    .error .NotOurs
  else
    bindNom (le_i32 data) fun _ ret_val =>
    .ok ret_val

/-- Reply parser of the GetIPInfo RPC (src/tcpip_rpcs.rs): validate the
header, require the declared payload length to be 12, take three 4-byte
addresses, then read the 32-bit status and fail with `RPCErr` when it
is nonzero. -/
def GetIPInfo.parse (data : List Nat) : Except (Err Int) IPInfo :=
  bindNom (Header.parse data) fun data hdr =>
  if hdr.msg_type ≠ MsgType.Reply ∨ hdr.service ≠ Service.TCPIP ∨
      hdr.request ≠ TCPIPRequest.GetIPInfo.val then
    .error .NotOurs
  else
    bindNom (le_u32 data) fun data payload_length =>
    if payload_length ≠ 12 then
      .error (.RPCErr 1)
    else
      bindNom (nomTake 4 data) fun data ip =>
      bindNom (nomTake 4 data) fun data mask =>
      bindNom (nomTake 4 data) fun data gateway =>
      bindNom (le_u32 data) fun _ result =>
      if result ≠ 0 then
        .error (.RPCErr (toI32 result))
      else
        .ok
          { ip := { a := ip.getD 0 0, b := ip.getD 1 0, c := ip.getD 2 0, d := ip.getD 3 0 }
            netmask := { a := mask.getD 0 0, b := mask.getD 1 0, c := mask.getD 2 0, d := mask.getD 3 0 }
            gateway := { a := gateway.getD 0 0, b := gateway.getD 1 0, c := gateway.getD 2 0, d := gateway.getD 3 0 } }

/-- Reference bit-by-bit CRC described by the specification, kept as a
genuine 16-bit register: per input byte, XOR the byte into the high
byte of the register, then run eight rounds of shift-left-by-one,
XORing in the polynomial 0x1021 whenever the pre-shift bit 15 was
set. -/
def crc16_spec_step (r : Nat) : Nat :=
  (if r.testBit 15 then (r <<< 1) ^^^ 0x1021 else r <<< 1) % 65536

/-- Reference CRC over a byte sequence, seeded with 0xEF4A. -/
def crc16_spec (data : List Nat) : Nat :=
  data.foldl (fun r b => crc16_spec_step^[8] (r ^^^ (b <<< 8))) 0xEF4A

lemma and255_eq_mod (x : Nat) : x &&& 255 = x % 256 := by
  have h : (255 : Nat) = 2 ^ 8 - 1 := rfl
  rw [h, Nat.and_pow_two_sub_one_eq_mod]

lemma xor_mod_two_pow (a b n : Nat) :
    (a ^^^ b) % 2 ^ n = (a % 2 ^ n) ^^^ (b % 2 ^ n) := by
  apply Nat.eq_of_testBit_eq
  intro i
  by_cases h : i < n <;>
    simp [Nat.testBit_mod_two_pow, Nat.testBit_xor, h]

lemma xor_mod_65536 (a b : Nat) :
    (a ^^^ b) % 65536 = (a % 65536) ^^^ (b % 65536) := by
  have h : (65536 : Nat) = 2 ^ 16 := rfl
  rw [h, xor_mod_two_pow]

lemma and_32768_ne_zero (w : Nat) :
    (w &&& 32768 ≠ 0) ↔ w.testBit 15 = true := by
  constructor
  · intro h
    rcases Nat.ne_zero_implies_bit_true h with ⟨i, hi⟩
    rw [Nat.testBit_and, Bool.and_eq_true] at hi
    have h2 := hi.2
    rw [show (32768 : Nat) = 2 ^ 15 from rfl, Nat.testBit_two_pow] at h2
    have h15 : (15 : Nat) = i := of_decide_eq_true h2
    subst h15
    exact hi.1
  · intro h hz
    have hb : (w &&& 32768).testBit 15 = true := by
      rw [Nat.testBit_and, h, show (32768 : Nat) = 2 ^ 15 from rfl,
        Nat.testBit_two_pow]
      rfl
    rw [hz] at hb
    simp at hb

lemma testBit15_mod_65536 (w : Nat) :
    (w % 65536).testBit 15 = w.testBit 15 := by
  have h : (65536 : Nat) = 2 ^ 16 := rfl
  rw [h, Nat.testBit_mod_two_pow]
  simp

lemma crcShift_mod (w : Nat) :
    crcShift w % 65536 = crc16_spec_step (w % 65536) := by
  have hshift : (w <<< 1) % 4294967296 % 65536 = ((w % 65536) <<< 1) % 65536 := by
    simp only [Nat.shiftLeft_eq, pow_one]
    omega
  by_cases h : w &&& 0x8000 ≠ 0
  · have ht : (w % 65536).testBit 15 = true := by
      rw [testBit15_mod_65536]
      exact (and_32768_ne_zero w).1 h
    simp only [crcShift, crc16_spec_step]
    rw [if_pos h, if_pos ht, xor_mod_65536, xor_mod_65536, hshift]
  · have ht : (w % 65536).testBit 15 = false := by
      rw [testBit15_mod_65536]
      cases hw : w.testBit 15
      · rfl
      · exact absurd ((and_32768_ne_zero w).2 hw) h
    simp only [crcShift, crc16_spec_step]
    rw [if_neg h, if_neg (by simp [ht])]
    exact hshift

lemma crcShift_iter_mod (k : Nat) :
    ∀ w, crcShift^[k] w % 65536 = crc16_spec_step^[k] (w % 65536) := by
  induction k with
  | zero => intro w; rfl
  | succ n ih =>
    intro w
    rw [Function.iterate_succ_apply', Function.iterate_succ_apply',
      crcShift_mod, ih]

lemma crc_fold_mod (data : List Nat) :
    ∀ w, (∀ b ∈ data, b < 256) →
      (data.foldl (fun crc b => crcShift^[8] (crc ^^^ (b <<< 8))) w) % 65536 =
        data.foldl (fun r b => crc16_spec_step^[8] (r ^^^ (b <<< 8))) (w % 65536) := by
  induction data with
  | nil => intro w _; rfl
  | cons b rest ih =>
    intro w hb
    simp only [List.foldl_cons]
    rw [ih _ (fun x hx => hb x (List.mem_cons_of_mem _ hx)),
      crcShift_iter_mod, xor_mod_65536,
      Nat.mod_eq_of_lt (show b <<< 8 < 65536 by
        have := hb b (List.mem_cons_self b rest)
        simp only [Nat.shiftLeft_eq]
        omega)]

/-- C1: the function crc16 equals the reference bit-by-bit CRC (seed
0xEF4A, polynomial 0x1021, XOR on pre-shift bit 15) on every byte
sequence, and on the empty sequence it returns exactly 0xEF4A. -/
theorem crc16_matches_reference :
    (∀ data : List Nat, (∀ b ∈ data, b < 256) →
      codec.crc16 data = crc16_spec data) ∧
    codec.crc16 [] = 0xEF4A := by
  constructor
  · intro data hb
    unfold codec.crc16 crc16_spec
    rw [crc_fold_mod data _ hb]
  · rfl

/-- Witness for C1 at the concrete byte sequence [1, 2, 3]. -/
theorem crc16_matches_reference_witness :
    (∀ b ∈ ([1, 2, 3] : List Nat), b < 256) ∧
      codec.crc16 [1, 2, 3] = crc16_spec [1, 2, 3] :=
  ⟨by decide, crc16_matches_reference.1 [1, 2, 3] (by decide)⟩

lemma service_fromU8_val (s : Service) : Service.fromU8 s.val = s := by
  cases s <;> rfl

lemma msgType_fromU8_val (m : MsgType) : MsgType.fromU8 m.val = m := by
  cases m <;> rfl

lemma le_u32_le_bytes (v : Nat) (hv : v < 4294967296) (rest : List Nat) :
    le_u32 (u32_le_bytes v ++ rest) = .done rest v := by
  simp only [u32_le_bytes, List.cons_append, List.nil_append, le_u32]
  congr 1
  omega

set_option maxRecDepth 8192 in
lemma pack_props (s : Service) (m : MsgType) :
    ∀ r, r < 256 →
      (BASIC_CODEC_VERSION <<< 24) ||| (s.val <<< 16) ||| (r <<< 8) ||| m.val < 4294967296 ∧
      (((BASIC_CODEC_VERSION <<< 24) ||| (s.val <<< 16) ||| (r <<< 8) ||| m.val) >>> 16) &&& 0xff = s.val ∧
      (((BASIC_CODEC_VERSION <<< 24) ||| (s.val <<< 16) ||| (r <<< 8) ||| m.val) >>> 8) &&& 0xff = r ∧
      ((BASIC_CODEC_VERSION <<< 24) ||| (s.val <<< 16) ||| (r <<< 8) ||| m.val) &&& 0xff = m.val := by
  cases s <;> cases m <;> decide

/-- C2: the round-trip property of the header codec: for every Header
value (any service including Unknown, any request byte, any message
type including Unknown, any 32-bit sequence), parsing the 8 encoded
bytes succeeds with an empty remainder and returns the same header. -/
theorem header_roundtrip (h : Header) (hr : h.request < 256)
    (hs : h.sequence < 4294967296) :
    Header.parse (Header.as_bytes h) = .done [] h := by
  obtain ⟨s, r, m, q⟩ := h
  obtain ⟨hlt, hsv, hrq, hmt⟩ := pack_props s m r hr
  simp only [Header.as_bytes, Header.parse]
  rw [le_u32_le_bytes _ hlt]
  simp only [IResult.bind]
  rw [show u32_le_bytes q = u32_le_bytes q ++ [] by simp,
    le_u32_le_bytes q hs]
  simp only [IResult.bind]
  rw [hsv, hrq, hmt, service_fromU8_val, msgType_fromU8_val]

/-- Witness for C2 at a concrete header value. -/
theorem header_roundtrip_witness :
    (305419896 : Nat) < 4294967296 ∧
      Header.parse
        (Header.as_bytes
          { service := .Wifi, request := 8, msg_type := .Reply, sequence := 305419896 }) =
        .done []
          { service := .Wifi, request := 8, msg_type := .Reply, sequence := 305419896 } :=
  ⟨by decide,
    header_roundtrip
      { service := .Wifi, request := 8, msg_type := .Reply, sequence := 305419896 }
      (by decide) (by decide)⟩

lemma le_u32_cons (b0 b1 b2 b3 : Nat) (t : List Nat) :
    le_u32 (b0 :: b1 :: b2 :: b3 :: t) =
      .done t (b0 + b1 * 256 + b2 * 65536 + b3 * 16777216) := rfl

lemma le_u16_cons (b0 b1 : Nat) (t : List Nat) :
    le_u16 (b0 :: b1 :: t) = .done t (b0 + b1 * 256) := rfl

lemma le_u32_incomplete (l : List Nat) (h : l.length < 4) :
    le_u32 l = .incomplete := by
  rcases l with _ | ⟨a, _ | ⟨b, _ | ⟨c, _ | ⟨d, t⟩⟩⟩⟩ <;>
    first
      | rfl
      | (simp only [List.length_cons] at h; omega)

lemma le_u16_incomplete (l : List Nat) (h : l.length < 2) :
    le_u16 l = .incomplete := by
  rcases l with _ | ⟨a, _ | ⟨b, t⟩⟩ <;>
    first
      | rfl
      | (simp only [List.length_cons] at h; omega)

lemma exists_cons4 (l : List Nat) (h : 4 ≤ l.length) :
    ∃ a b c d t, l = a :: b :: c :: d :: t := by
  rcases l with _ | ⟨a, _ | ⟨b, _ | ⟨c, _ | ⟨d, t⟩⟩⟩⟩ <;>
    first
      | exact ⟨a, b, c, d, t, rfl⟩
      | (simp only [List.length_cons, List.length_nil] at h; omega)

lemma extract_byte2 (b0 b1 b2 b3 : Nat) (h0 : b0 < 256) (h1 : b1 < 256)
    (h2 : b2 < 256) :
    ((b0 + b1 * 256 + b2 * 65536 + b3 * 16777216) >>> 16) &&& 0xff = b2 := by
  rw [Nat.shiftRight_eq_div_pow, and255_eq_mod,
    show (2 : Nat) ^ 16 = 65536 from rfl]
  omega

lemma extract_byte1 (b0 b1 b2 b3 : Nat) (h0 : b0 < 256) (h1 : b1 < 256) :
    ((b0 + b1 * 256 + b2 * 65536 + b3 * 16777216) >>> 8) &&& 0xff = b1 := by
  rw [Nat.shiftRight_eq_div_pow, and255_eq_mod,
    show (2 : Nat) ^ 8 = 256 from rfl]
  omega

lemma extract_byte0 (b0 b1 b2 b3 : Nat) (h0 : b0 < 256) :
    (b0 + b1 * 256 + b2 * 65536 + b3 * 16777216) &&& 0xff = b0 := by
  rw [and255_eq_mod]
  omega

lemma header_parse_cons8 (b0 b1 b2 b3 : Nat) (rest : List Nat)
    (h0 : b0 < 256) (h1 : b1 < 256) (h2 : b2 < 256) (hr : 4 ≤ rest.length) :
    Header.parse (b0 :: b1 :: b2 :: b3 :: rest) =
      .done (rest.drop 4)
        { service := Service.fromU8 b2, request := b1,
          msg_type := MsgType.fromU8 b0,
          sequence :=
            rest.getD 0 0 + rest.getD 1 0 * 256 + rest.getD 2 0 * 65536 +
              rest.getD 3 0 * 16777216 } := by
  obtain ⟨c0, c1, c2, c3, t, rfl⟩ := exists_cons4 rest hr
  simp only [Header.parse, le_u32_cons, IResult.bind, List.drop_succ_cons,
    List.drop_zero, List.getD_cons_zero, List.getD_cons_succ]
  rw [extract_byte2 b0 b1 b2 b3 h0 h1 h2, extract_byte1 b0 b1 b2 b3 h0 h1,
    extract_byte0 b0 b1 b2 b3 h0]

/-- C4: streaming behavior of the two decoders: fewer than 8 (header)
or 4 (frame header) bytes yields the incomplete-input signal, which is
distinct from a malformed-input failure, while sufficient input yields
the decoded structure and exactly the bytes past the consumed prefix. -/
theorem streaming_parse_behavior :
    (∀ l : List Nat, l.length < 8 → Header.parse l = .incomplete) ∧
    (∀ l : List Nat, l.length < 4 → FrameHeader.parse l = .incomplete) ∧
    (∀ b0 b1 b2 b3 : Nat, ∀ rest : List Nat,
      b0 < 256 → b1 < 256 → b2 < 256 → 4 ≤ rest.length →
      Header.parse (b0 :: b1 :: b2 :: b3 :: rest) =
        .done (rest.drop 4)
          { service := Service.fromU8 b2, request := b1,
            msg_type := MsgType.fromU8 b0,
            sequence :=
              rest.getD 0 0 + rest.getD 1 0 * 256 + rest.getD 2 0 * 65536 +
                rest.getD 3 0 * 16777216 }) ∧
    (∀ c0 c1 c2 c3 : Nat, ∀ rest : List Nat,
      FrameHeader.parse (c0 :: c1 :: c2 :: c3 :: rest) =
        .done rest { msg_length := c0 + c1 * 256, crc16 := c2 + c3 * 256 }) ∧
    (IResult.incomplete ≠ (IResult.failed : IResult (List Nat) Header)) := by
  refine ⟨?_, ?_, ?_, ?_, by intro hc; cases hc⟩
  · intro l hl
    by_cases h4 : l.length < 4
    · simp only [Header.parse, le_u32_incomplete l h4, IResult.bind]
    · obtain ⟨a, b, c, d, t, rfl⟩ := exists_cons4 l (by omega)
      have ht : t.length < 4 := by
        simp only [List.length_cons] at hl
        omega
      simp only [Header.parse, le_u32_cons, IResult.bind,
        le_u32_incomplete t ht]
  · intro l hl
    by_cases h2 : l.length < 2
    · simp only [FrameHeader.parse, le_u16_incomplete l h2, IResult.bind]
    · rcases l with _ | ⟨a, _ | ⟨b, t⟩⟩
      · simp at h2
      · simp at h2
      · have ht : t.length < 2 := by
          simp only [List.length_cons] at hl
          omega
        simp only [FrameHeader.parse, le_u16_cons, IResult.bind,
          le_u16_incomplete t ht]
  · intro b0 b1 b2 b3 rest h0 h1 h2 hr
    exact header_parse_cons8 b0 b1 b2 b3 rest h0 h1 h2 hr
  · intro c0 c1 c2 c3 rest
    simp only [FrameHeader.parse, le_u16_cons, IResult.bind]

/-- Witness for C4 at concrete short and long inputs. -/
theorem streaming_parse_behavior_witness :
    Header.parse [1, 2, 3] = .incomplete ∧
    FrameHeader.parse [9] = .incomplete ∧
    Header.parse [2, 8, 14, 1, 7, 0, 0, 0, 42] =
      .done [42]
        { service := .Wifi, request := 8, msg_type := .Reply, sequence := 7 } ∧
    FrameHeader.parse [5, 0, 77, 1, 9, 9] =
      .done [9, 9] { msg_length := 5, crc16 := 77 + 1 * 256 } := by
  refine ⟨streaming_parse_behavior.1 [1, 2, 3] (by decide),
    streaming_parse_behavior.2.1 [9] (by decide), ?_, ?_⟩
  · have h := streaming_parse_behavior.2.2.1 2 8 14 1 [7, 0, 0, 0, 42]
      (by decide) (by decide) (by decide) (by decide)
    simpa using h
  · have h := streaming_parse_behavior.2.2.2.1 5 0 77 1 [9, 9]
    simpa using h

set_option maxRecDepth 8192 in
lemma service_fromU8_not_listed :
    ∀ b, b < 256 → b ∉ ([1, 2, 3, 4, 13, 14, 15, 18] : List Nat) →
      Service.fromU8 b = .Unknown := by
  decide

set_option maxRecDepth 8192 in
lemma msgType_fromU8_not_listed :
    ∀ b, b < 256 → b ∉ ([0, 1, 2, 3] : List Nat) →
      MsgType.fromU8 b = .Unknown := by
  decide

/-- C5: header decoding succeeds for every 8-byte input: unrecognized
service bytes map to `Service.Unknown`, unrecognized message-type bytes
map to `MsgType.Unknown`, and the request byte passes through
unchanged. -/
theorem header_parse_total (b0 b1 b2 b3 : Nat) (rest : List Nat)
    (h0 : b0 < 256) (h1 : b1 < 256) (h2 : b2 < 256) (hr : 4 ≤ rest.length) :
    (∃ rem seq,
      Header.parse (b0 :: b1 :: b2 :: b3 :: rest) =
        .done rem
          { service := Service.fromU8 b2, request := b1,
            msg_type := MsgType.fromU8 b0, sequence := seq }) ∧
    (b2 ∉ ([1, 2, 3, 4, 13, 14, 15, 18] : List Nat) →
      Service.fromU8 b2 = .Unknown) ∧
    (b0 ∉ ([0, 1, 2, 3] : List Nat) → MsgType.fromU8 b0 = .Unknown) := by
  refine ⟨⟨rest.drop 4, _, header_parse_cons8 b0 b1 b2 b3 rest h0 h1 h2 hr⟩,
    service_fromU8_not_listed b2 h2, msgType_fromU8_not_listed b0 h0⟩

/-- Witness for C5 at a concrete input with out-of-range service byte
0xAA and message-type byte 0x63. -/
theorem header_parse_total_witness :
    (∃ rem seq,
      Header.parse [99, 5, 170, 1, 0, 0, 0, 0] =
        .done rem
          { service := Service.fromU8 170, request := 5,
            msg_type := MsgType.fromU8 99, sequence := seq }) ∧
    Service.fromU8 170 = .Unknown ∧ MsgType.fromU8 99 = .Unknown := by
  have h := header_parse_total 99 5 170 1 [0, 0, 0, 0]
    (by decide) (by decide) (by decide) (by decide)
  exact ⟨h.1, h.2.1 (by decide), h.2.2 (by decide)⟩

/-- C10: header decoding never examines the protocol-version byte
(index 3): two inputs differing only there parse to identical results,
and parsing succeeds with the exact remainder regardless of the version
value. -/
theorem version_byte_ignored (b0 b1 b2 v w : Nat) (rest : List Nat)
    (h0 : b0 < 256) (h1 : b1 < 256) (h2 : b2 < 256) (hv : v < 256)
    (hw : w < 256) (hr : 4 ≤ rest.length) :
    Header.parse (b0 :: b1 :: b2 :: v :: rest) =
      Header.parse (b0 :: b1 :: b2 :: w :: rest) ∧
    ∃ hdr, Header.parse (b0 :: b1 :: b2 :: v :: rest) =
      .done (rest.drop 4) hdr := by
  rw [header_parse_cons8 b0 b1 b2 v rest h0 h1 h2 hr,
    header_parse_cons8 b0 b1 b2 w rest h0 h1 h2 hr]
  exact ⟨rfl, _, rfl⟩

/-- Witness for C10 at concrete inputs differing only in the version
byte (1 versus 0xAA). -/
theorem version_byte_ignored_witness :
    Header.parse [2, 8, 14, 1, 7, 0, 0, 0] =
      Header.parse [2, 8, 14, 170, 7, 0, 0, 0] ∧
    ∃ hdr, Header.parse [2, 8, 14, 1, 7, 0, 0, 0] =
      .done (([7, 0, 0, 0] : List Nat).drop 4) hdr :=
  version_byte_ignored 2 8 14 1 170 [7, 0, 0, 0]
    (by decide) (by decide) (by decide) (by decide) (by decide) (by decide)

/-- C3: every implemented RPC reply parser returns `NotOurs` whenever
the leading 8 bytes decode to a header whose message type is not Reply,
or whose service or request id differs from the call's own, regardless
of the remaining payload. -/
theorem reply_mismatch_not_ours (data rest : List Nat) (hdr : Header)
    (hp : Header.parse data = .done rest hdr) :
    (hdr.msg_type ≠ MsgType.Reply ∨ hdr.service ≠ Service.System ∨
        hdr.request ≠ SystemRequest.VersionID.val →
      GetVersion.parse data = .error .NotOurs) ∧
    (hdr.msg_type ≠ MsgType.Reply ∨ hdr.service ≠ Service.Wifi ∨
        hdr.request ≠ WifiRequest.GetMacAddress.val →
      GetMacAddress.parse data = .error .NotOurs) ∧
    (hdr.msg_type ≠ MsgType.Reply ∨ hdr.service ≠ Service.Wifi ∨
        hdr.request ≠ WifiRequest.IsScanning.val →
      IsScanning.parse data = .error .NotOurs) ∧
    (∀ n, hdr.msg_type ≠ MsgType.Reply ∨ hdr.service ≠ Service.Wifi ∨
        hdr.request ≠ WifiRequest.ScanGetAP.val →
      ScanGetAP.parse n data = .error .NotOurs) ∧
    (hdr.msg_type ≠ MsgType.Reply ∨ hdr.service ≠ Service.Wifi ∨
        hdr.request ≠ WifiRequest.ScanGetNumAPs.val →
      ScanGetNumAPs.parse data = .error .NotOurs) ∧
    (hdr.msg_type ≠ MsgType.Reply ∨ hdr.service ≠ Service.Wifi ∨
        hdr.request ≠ WifiRequest.ScanStart.val →
      ScanStart.parse data = .error .NotOurs) ∧
    (hdr.msg_type ≠ MsgType.Reply ∨ hdr.service ≠ Service.Wifi ∨
        hdr.request ≠ WifiRequest.TurnOn.val →
      WifiOn.parse data = .error .NotOurs) ∧
    (hdr.msg_type ≠ MsgType.Reply ∨ hdr.service ≠ Service.Wifi ∨
        hdr.request ≠ WifiRequest.TurnOff.val →
      WifiOff.parse data = .error .NotOurs) ∧
    (hdr.msg_type ≠ MsgType.Reply ∨ hdr.service ≠ Service.Wifi ∨
        hdr.request ≠ WifiRequest.Connect.val →
      WifiConnect.parse data = .error .NotOurs) ∧
    (hdr.msg_type ≠ MsgType.Reply ∨ hdr.service ≠ Service.TCPIP ∨
        hdr.request ≠ TCPIPRequest.AdapterInit.val →
      AdapterInit.parse data = .error .NotOurs) ∧
    (hdr.msg_type ≠ MsgType.Reply ∨ hdr.service ≠ Service.TCPIP ∨
        hdr.request ≠ TCPIPRequest.DHCPClientStart.val →
      DHCPClientStart.parse data = .error .NotOurs) ∧
    (hdr.msg_type ≠ MsgType.Reply ∨ hdr.service ≠ Service.TCPIP ∨
        hdr.request ≠ TCPIPRequest.DHCPClientStop.val →
      DHCPClientStop.parse data = .error .NotOurs) ∧
    (hdr.msg_type ≠ MsgType.Reply ∨ hdr.service ≠ Service.TCPIP ∨
        hdr.request ≠ TCPIPRequest.GetIPInfo.val →
      GetIPInfo.parse data = .error .NotOurs) := by
  refine ⟨?_, ?_, ?_, ?_, ?_, ?_, ?_, ?_, ?_, ?_, ?_, ?_, ?_⟩
  · intro hm
    simp only [GetVersion.parse, hp, bindNom]
    rw [if_pos hm]
  · intro hm
    simp only [GetMacAddress.parse, hp, bindNom]
    rw [if_pos hm]
  · intro hm
    simp only [IsScanning.parse, hp, bindNom]
    rw [if_pos hm]
  · intro n hm
    simp only [ScanGetAP.parse, hp, bindNom]
    rw [if_pos hm]
  · intro hm
    simp only [ScanGetNumAPs.parse, hp, bindNom]
    rw [if_pos hm]
  · intro hm
    simp only [ScanStart.parse, hp, bindNom]
    rw [if_pos hm]
  · intro hm
    simp only [WifiOn.parse, hp, bindNom]
    rw [if_pos hm]
  · intro hm
    simp only [WifiOff.parse, hp, bindNom]
    rw [if_pos hm]
  · intro hm
    simp only [WifiConnect.parse, hp, bindNom]
    rw [if_pos hm]
  · intro hm
    simp only [AdapterInit.parse, hp, bindNom]
    rw [if_pos hm]
  · intro hm
    simp only [DHCPClientStart.parse, hp, bindNom]
    rw [if_pos hm]
  · intro hm
    simp only [DHCPClientStop.parse, hp, bindNom]
    rw [if_pos hm]
  · intro hm
    simp only [GetIPInfo.parse, hp, bindNom]
    rw [if_pos hm]

/-- Witness for C3: the all-zero 8-byte reply decodes to an Invocation
header for service byte 0, which is not ours for every call. -/
theorem reply_mismatch_not_ours_witness :
    GetVersion.parse [0, 0, 0, 0, 0, 0, 0, 0] = .error .NotOurs ∧
    GetMacAddress.parse [0, 0, 0, 0, 0, 0, 0, 0] = .error .NotOurs ∧
    IsScanning.parse [0, 0, 0, 0, 0, 0, 0, 0] = .error .NotOurs ∧
    ScanGetAP.parse 3 [0, 0, 0, 0, 0, 0, 0, 0] = .error .NotOurs ∧
    ScanGetNumAPs.parse [0, 0, 0, 0, 0, 0, 0, 0] = .error .NotOurs ∧
    ScanStart.parse [0, 0, 0, 0, 0, 0, 0, 0] = .error .NotOurs ∧
    WifiOn.parse [0, 0, 0, 0, 0, 0, 0, 0] = .error .NotOurs ∧
    WifiOff.parse [0, 0, 0, 0, 0, 0, 0, 0] = .error .NotOurs ∧
    WifiConnect.parse [0, 0, 0, 0, 0, 0, 0, 0] = .error .NotOurs ∧
    AdapterInit.parse [0, 0, 0, 0, 0, 0, 0, 0] = .error .NotOurs ∧
    DHCPClientStart.parse [0, 0, 0, 0, 0, 0, 0, 0] = .error .NotOurs ∧
    DHCPClientStop.parse [0, 0, 0, 0, 0, 0, 0, 0] = .error .NotOurs ∧
    GetIPInfo.parse [0, 0, 0, 0, 0, 0, 0, 0] = .error .NotOurs := by
  have h := reply_mismatch_not_ours [0, 0, 0, 0, 0, 0, 0, 0] []
    { service := .Unknown, request := 0, msg_type := .Invocation, sequence := 0 }
    rfl
  exact ⟨h.1 (by decide), h.2.1 (by decide), h.2.2.1 (by decide),
    h.2.2.2.1 3 (by decide), h.2.2.2.2.1 (by decide),
    h.2.2.2.2.2.1 (by decide), h.2.2.2.2.2.2.1 (by decide),
    h.2.2.2.2.2.2.2.1 (by decide), h.2.2.2.2.2.2.2.2.1 (by decide),
    h.2.2.2.2.2.2.2.2.2.1 (by decide), h.2.2.2.2.2.2.2.2.2.2.1 (by decide),
    h.2.2.2.2.2.2.2.2.2.2.2.1 (by decide),
    h.2.2.2.2.2.2.2.2.2.2.2.2 (by decide)⟩

/-- C6: `check_crc` succeeds exactly when the recomputed checksum over
the payload equals the stored crc16 field, fails with `CRCMismatch` in
every other case, and always succeeds on a frame header freshly built
from the same payload. -/
theorem check_crc_spec :
    ∀ (E : Type) (f : FrameHeader) (p : List Nat),
      (FrameHeader.check_crc E f p = .ok () ↔ codec.crc16 p = f.crc16) ∧
      (FrameHeader.check_crc E f p = .ok () ∨
        FrameHeader.check_crc E f p = .error .CRCMismatch) ∧
      FrameHeader.check_crc E (FrameHeader.new_from_msg p) p = .ok () := by
  intro E f p
  refine ⟨?_, ?_, ?_⟩
  · unfold FrameHeader.check_crc
    by_cases h : codec.crc16 p = f.crc16 <;> simp [h]
  · unfold FrameHeader.check_crc
    by_cases h : codec.crc16 p = f.crc16 <;> simp [h]
  · unfold FrameHeader.check_crc FrameHeader.new_from_msg
    simp

/-- Witness for C6 at a concrete frame header and payload. -/
theorem check_crc_spec_witness :
    FrameHeader.check_crc Unit
      (FrameHeader.new_from_msg [1, 2, 3]) [1, 2, 3] = .ok () :=
  (check_crc_spec Unit (FrameHeader.new_from_msg [1, 2, 3]) [1, 2, 3]).2.2

/-- C7 counterexample: the encoder emits the packed leading word in
little-endian byte order, so the concrete call of the claim produces
[0x00, 0x02, 0x01, 0x01, ...], not the claimed [0x01, 0x01, 0x02, 0x00,
...]. -/
theorem header_encode_counterexample :
    Header.as_bytes
        { service := .System, request := 2, msg_type := .Invocation, sequence := 7 } ≠
      [0x01, 0x01, 0x02, 0x00, 0x07, 0x00, 0x00, 0x00] := by
  decide

/-- C7 amended: encoding the header with service System (1), request 2,
message type Invocation, sequence 7 produces exactly the bytes
[0x00, 0x02, 0x01, 0x01, 0x07, 0x00, 0x00, 0x00] (message type,
request, service, version, then the little-endian sequence). -/
theorem header_encode_concrete :
    Header.as_bytes
        { service := .System, request := 2, msg_type := .Invocation, sequence := 7 } =
      [0x00, 0x02, 0x01, 0x01, 0x07, 0x00, 0x00, 0x00] := by
  decide

lemma new_from_msg_msg_length (p : List Nat) :
    (FrameHeader.new_from_msg p).msg_length = p.length % 65536 := rfl

/-- C9 counterexample: `msg.len() as u16` truncates, so a 65536-byte
payload yields a frame header whose msg_length field is 0, not the
payload's length. -/
theorem frame_length_truncates :
    (FrameHeader.new_from_msg (List.replicate 65536 0)).msg_length = 0 ∧
    (List.replicate 65536 0).length = 65536 := by
  constructor
  · rw [new_from_msg_msg_length, List.length_replicate]
  · rw [List.length_replicate]

/-- C9 amended: the frame header built from a payload stores the
payload's checksum and its length reduced modulo 2^16; whenever the
payload is shorter than 65536 bytes the stored length is exactly the
payload length. -/
theorem frame_header_fields :
    (∀ p : List Nat,
      (FrameHeader.new_from_msg p).crc16 = codec.crc16 p ∧
      (FrameHeader.new_from_msg p).msg_length = p.length % 65536) ∧
    (∀ p : List Nat, p.length < 65536 →
      (FrameHeader.new_from_msg p).msg_length = p.length) := by
  refine ⟨fun p => ⟨rfl, rfl⟩, fun p hp => ?_⟩
  simp only [FrameHeader.new_from_msg]
  omega

/-- Witness for C9 at a concrete short payload. -/
theorem frame_header_fields_witness :
    ([1, 2, 3] : List Nat).length < 65536 ∧
      (FrameHeader.new_from_msg [1, 2, 3]).msg_length = ([1, 2, 3] : List Nat).length :=
  ⟨by decide, frame_header_fields.2 [1, 2, 3] (by decide)⟩

lemma pushChars_ok (bytes : List Nat) :
    ∀ (cap len : Nat) (acc : List Nat),
      len + (bytes.map utf8Len).sum ≤ cap →
      pushChars cap len acc bytes = some (acc ++ bytes) := by
  induction bytes with
  | nil =>
    intro cap len acc _
    simp [pushChars]
  | cons b rest ih =>
    intro cap len acc h
    simp only [List.map_cons, List.sum_cons] at h
    rw [pushChars, if_pos (show len + utf8Len b ≤ cap by omega),
      ih cap (len + utf8Len b) (acc ++ [b]) (by omega)]
    simp [List.append_assoc]

lemma nomTake_ok (n : Nat) (l : List Nat) (h : n ≤ l.length) :
    nomTake n l = .done (l.drop n) (l.take n) := by
  unfold nomTake
  rw [if_neg (by omega)]

/-- C8 counterexample: a well-formed matching ScanGetAP reply whose
trailing status is the nonzero value 1 parses successfully (the status
is returned inside the Ok tuple), so ScanGetAP does not surface a
nonzero status as `RPCErr`. -/
theorem scan_get_ap_status_counterexample :
    ScanGetAP.parse 1
        ([2, 66, 14, 1, 0, 0, 0, 0] ++ [62, 0, 0, 0] ++
          List.replicate 62 0 ++ [1, 0, 0, 0]) =
      .ok
        ([{ ssid := { len := 0, value := List.replicate 33 0 },
            bssid := { bytes := List.replicate 6 0 }, rssi := 0,
            bss_type := .Infra, security := 0, wps := .Default, chan := 0,
            band := .Ghz5 }], 1) ∧
    ScanGetAP.parse 1
        ([2, 66, 14, 1, 0, 0, 0, 0] ++ [62, 0, 0, 0] ++
          List.replicate 62 0 ++ [1, 0, 0, 0]) ≠
      .error (.RPCErr 1) := by
  have h : ScanGetAP.parse 1
      ([2, 66, 14, 1, 0, 0, 0, 0] ++ [62, 0, 0, 0] ++
        List.replicate 62 0 ++ [1, 0, 0, 0]) =
      .ok
        ([{ ssid := { len := 0, value := List.replicate 33 0 },
            bssid := { bytes := List.replicate 6 0 }, rssi := 0,
            bss_type := .Infra, security := 0, wps := .Default, chan := 0,
            band := .Ghz5 }], 1) := rfl
  refine ⟨h, ?_⟩
  rw [h]
  exact fun hc => Except.noConfusion hc

/-- C8 amended: for the RPCs whose reply carries a typed value followed
by a numeric status and whose parser checks it — GetMacAddress and
GetIPInfo — a well-formed matching reply with a nonzero trailing status
parses to `RPCErr(status)`; for GetMacAddress this additionally
requires the 17 MAC bytes to fit the capacity-18 string as UTF-8 (true
in particular for all-ASCII bytes), since otherwise a push overflows
and the code returns `ResponseOverrun` before reading the status.
ScanGetAP instead returns the status inside its Ok tuple. -/
theorem status_error_surfaced :
    (∀ (data d rest : List Nat) (hdr : Header) (result : Nat),
      Header.parse data = .done d hdr →
      hdr.msg_type = MsgType.Reply → hdr.service = Service.Wifi →
      hdr.request = WifiRequest.GetMacAddress.val →
      18 ≤ d.length →
      ((d.take 17).map utf8Len).sum ≤ 18 →
      le_u32 (d.drop 18) = .done rest result → result ≠ 0 →
      GetMacAddress.parse data = .error (.RPCErr (toI32 result))) ∧
    (∀ (data d d2 rest : List Nat) (hdr : Header) (result : Nat),
      Header.parse data = .done d hdr →
      hdr.msg_type = MsgType.Reply → hdr.service = Service.TCPIP →
      hdr.request = TCPIPRequest.GetIPInfo.val →
      le_u32 d = .done d2 12 → 12 ≤ d2.length →
      le_u32 (d2.drop 12) = .done rest result → result ≠ 0 →
      GetIPInfo.parse data = .error (.RPCErr (toI32 result))) := by
  constructor
  · intro data d rest hdr result hp hmt hsv hrq hlen hfit hle hres
    have hpush : pushChars 18 0 [] (d.take 17) = some ([] ++ d.take 17) :=
      pushChars_ok (d.take 17) 18 0 [] (by omega)
    simp only [GetMacAddress.parse, hp, bindNom]
    rw [if_neg (by simp [hmt, hsv, hrq]), if_neg (by omega)]
    simp only [hpush, List.nil_append, hle, bindNom]
    rw [if_pos hres]
  · intro data d d2 rest hdr result hp hmt hsv hrq hl12 hlen2 hres hr0
    simp only [GetIPInfo.parse, hp, bindNom]
    rw [if_neg (by simp [hmt, hsv, hrq])]
    simp only [hl12, bindNom]
    rw [if_neg (by decide)]
    rw [nomTake_ok 4 d2 (by omega)]
    simp only [bindNom]
    rw [nomTake_ok 4 (d2.drop 4) (by simp only [List.length_drop]; omega)]
    simp only [bindNom, List.drop_drop]
    rw [nomTake_ok 4 (d2.drop (4 + 4)) (by simp only [List.length_drop]; omega)]
    simp only [bindNom, List.drop_drop]
    rw [show (4 + (4 + 4)) = 12 from rfl, hres]
    simp only [bindNom]
    rw [if_pos hr0]

/-- Witness for C8 at concrete GetMacAddress and GetIPInfo replies with
nonzero statuses 5 and 7. -/
theorem status_error_surfaced_witness :
    GetMacAddress.parse
        ([2, 8, 14, 1, 0, 0, 0, 0] ++ (List.replicate 17 65 ++ [0, 5, 0, 0, 0])) =
      .error (.RPCErr (toI32 5)) ∧
    GetIPInfo.parse
        [2, 7, 15, 1, 0, 0, 0, 0, 12, 0, 0, 0, 192, 168, 1, 2, 255, 255, 255, 0,
          192, 168, 1, 1, 7, 0, 0, 0] =
      .error (.RPCErr (toI32 7)) := by
  constructor
  · exact status_error_surfaced.1
      ([2, 8, 14, 1, 0, 0, 0, 0] ++ (List.replicate 17 65 ++ [0, 5, 0, 0, 0]))
      (List.replicate 17 65 ++ [0, 5, 0, 0, 0]) [] 
      { service := .Wifi, request := 8, msg_type := .Reply, sequence := 0 }
      5 rfl rfl rfl rfl (by decide) (by decide) rfl (by decide)
  · exact status_error_surfaced.2
      [2, 7, 15, 1, 0, 0, 0, 0, 12, 0, 0, 0, 192, 168, 1, 2, 255, 255, 255, 0,
        192, 168, 1, 1, 7, 0, 0, 0]
      [12, 0, 0, 0, 192, 168, 1, 2, 255, 255, 255, 0, 192, 168, 1, 1, 7, 0, 0, 0]
      [192, 168, 1, 2, 255, 255, 255, 0, 192, 168, 1, 1, 7, 0, 0, 0] []
      { service := .TCPIP, request := 7, msg_type := .Reply, sequence := 0 }
      7 rfl rfl rfl rfl rfl (by decide) rfl (by decide)
